import Mathlib

/-
  Verification development for the SDL2 header-only virtual joystick
  (virtual_joyistick_asets.h).  The C code computes in single-precision
  floating point; we embed it over the real numbers, the standard
  idealization for this kind of screen-space geometry.  Stateful C code
  (functions mutating `VirtualJoystick*`) is embedded as explicit
  state-passing functions `VirtualJoystick → ... → VirtualJoystick`.
  Rendering (textures, renderer handle) is an external collaborator and
  is not modelled, except that the tip-texture color modulation applied
  by `SDL_SetTextureColorMod` is recorded in a `_tip_color` field so the
  reset/activation color behaviour is visible in the state.
-/

open Classical

noncomputable section

/-- Mirror of the C struct `Vector2 { float x; float y; }`. -/
@[ext]
structure Vector2 where
  x : ℝ
  y : ℝ

/-- Mirror of SDL's `SDL_FPoint { float x; float y; }`. -/
@[ext]
structure SDL_FPoint where
  x : ℝ
  y : ℝ

/-- Mirror of SDL's `SDL_Rect { int x; int y; int w; int h; }`. -/
structure SDL_Rect where
  x : Int
  y : Int
  w : Int
  h : Int

/-- Mirror of SDL's `SDL_Color { Uint8 r, g, b, a; }`. -/
structure SDL_Color where
  r : Nat
  g : Nat
  b : Nat
  a : Nat

/-- C's `(int)` cast of a floating value truncates toward zero: floor for
nonnegative arguments, ceiling for negative ones. -/
def truncInt (x : ℝ) : Int := if 0 ≤ x then ⌊x⌋ else ⌈x⌉

/-- Embeds `Vector2_Length`: `sqrtf(v.x * v.x + v.y * v.y)`. -/
def Vector2_Length (v : Vector2) : ℝ := Real.sqrt (v.x * v.x + v.y * v.y)

/-- Embeds `Vector2_Normalize`: returns `(0,0)` when the length is zero,
otherwise divides both components by the length. -/
def Vector2_Normalize (v : Vector2) : Vector2 :=
  if Vector2_Length v = 0 then ⟨0, 0⟩
  else ⟨v.x / Vector2_Length v, v.y / Vector2_Length v⟩

/-- Embeds `Vector2_LimitLength`: scales the vector down to `max_len` when
its length strictly exceeds `max_len`, else returns it unchanged. -/
def Vector2_LimitLength (v : Vector2) (max_len : ℝ) : Vector2 :=
  if Vector2_Length v > max_len then
    ⟨v.x / Vector2_Length v * max_len, v.y / Vector2_Length v * max_len⟩
  else v

/-- Mirror of the C enum `JoystickMode`. -/
inductive JoystickMode where
  | JOYSTICK_MODE_FIXED
  | JOYSTICK_MODE_DYNAMIC
  | JOYSTICK_MODE_FOLLOWING
  deriving DecidableEq

/-- SDL touch event kinds relevant to `VirtualJoystick_HandleEvent`; every
other `SDL_Event` type falls through the C `switch` unchanged and is
represented by `SDL_OTHER_EVENT`. -/
inductive SDL_EventType where
  | SDL_FINGERDOWN
  | SDL_FINGERUP
  | SDL_FINGERMOTION
  | SDL_OTHER_EVENT
  deriving DecidableEq

/-- The `tfinger` payload of an SDL touch event: a finger identifier and a
normalized position in `[0,1] × [0,1]`. -/
structure SDL_TouchFingerEvent where
  fingerId : Int
  x : ℝ
  y : ℝ

/-- An SDL event as seen by `VirtualJoystick_HandleEvent`: its type tag and
its touch payload. -/
structure SDL_Event where
  type : SDL_EventType
  tfinger : SDL_TouchFingerEvent

/-- Mirror of the C struct `VirtualJoystick` (renderer and texture handles
omitted; `_tip_color` records the current tip color modulation). -/
structure VirtualJoystick where
  joystick_area : SDL_Rect
  pressed_color : SDL_Color
  deadzone_size : ℝ
  clampzone_size : ℝ
  joystick_mode : JoystickMode
  is_pressed : Bool
  output : Vector2
  _touch_index : Int
  _base_center : SDL_FPoint
  _tip_center : SDL_FPoint
  _base_default_center : SDL_FPoint
  _default_tip_color : SDL_Color
  _tip_color : SDL_Color
  _base_radius : Int
  _tip_radius : Int
  _hidden : Bool
  _window_width : Int
  _window_height : Int

/-- Embeds `_is_point_inside_joystick_area`: the point is truncated to an
`SDL_Point` and tested with `SDL_PointInRect` (half-open rectangle). -/
def _is_point_inside_joystick_area (joystick : VirtualJoystick) (point : SDL_FPoint) : Prop :=
  joystick.joystick_area.x ≤ truncInt point.x ∧
  truncInt point.x < joystick.joystick_area.x + joystick.joystick_area.w ∧
  joystick.joystick_area.y ≤ truncInt point.y ∧
  truncInt point.y < joystick.joystick_area.y + joystick.joystick_area.h

/-- Embeds `_is_point_inside_base`: squared distance from the point to the
current base center compared against the squared (integer) base radius. -/
def _is_point_inside_base (joystick : VirtualJoystick) (point : SDL_FPoint) : Prop :=
  (point.x - joystick._base_center.x) * (point.x - joystick._base_center.x) +
  (point.y - joystick._base_center.y) * (point.y - joystick._base_center.y) ≤
  ((joystick._base_radius * joystick._base_radius : Int) : ℝ)

/-- The local `vector_from_base_center` of `_update_joystick_logic`: the raw
vector from the base center to the touch position. -/
def vector_from_base_center (joystick : VirtualJoystick) (touch_position : SDL_FPoint) : Vector2 :=
  ⟨touch_position.x - joystick._base_center.x, touch_position.y - joystick._base_center.y⟩

/-- The local `clamped_vector` of `_update_joystick_logic`: the raw vector
limited to `clampzone_size`. -/
def clamped_vector (joystick : VirtualJoystick) (touch_position : SDL_FPoint) : Vector2 :=
  Vector2_LimitLength (vector_from_base_center joystick touch_position) joystick.clampzone_size

/-- Embeds `_update_joystick_logic`.  The C body mutates the state in
order: possibly move the base (FOLLOWING mode), place the tip relative to
the (possibly moved) base, then compute `is_pressed` and `output`; here the
same sequencing is rendered functionally. -/
def _update_joystick_logic (joystick : VirtualJoystick) (touch_position : SDL_FPoint) :
    VirtualJoystick :=
  let clamped := clamped_vector joystick touch_position
  let new_base : SDL_FPoint :=
    if joystick.joystick_mode = JoystickMode.JOYSTICK_MODE_FOLLOWING ∧
        Vector2_Length (vector_from_base_center joystick touch_position) > joystick.clampzone_size
    then ⟨touch_position.x - clamped.x, touch_position.y - clamped.y⟩
    else joystick._base_center
  let new_tip : SDL_FPoint := ⟨new_base.x + clamped.x, new_base.y + clamped.y⟩
  if Vector2_Length clamped > joystick.deadzone_size then
    if joystick.clampzone_size - joystick.deadzone_size ≤ 0 then
      { joystick with
        _base_center := new_base, _tip_center := new_tip,
        is_pressed := true, output := ⟨0, 0⟩ }
    else
      { joystick with
        _base_center := new_base, _tip_center := new_tip,
        is_pressed := true,
        output :=
          ⟨(Vector2_Normalize clamped).x *
              ((Vector2_Length clamped - joystick.deadzone_size) /
               (joystick.clampzone_size - joystick.deadzone_size)),
            (Vector2_Normalize clamped).y *
              ((Vector2_Length clamped - joystick.deadzone_size) /
               (joystick.clampzone_size - joystick.deadzone_size))⟩ }
  else
    { joystick with
      _base_center := new_base, _tip_center := new_tip,
      is_pressed := false, output := ⟨0, 0⟩ }

/-- Embeds `_reset_joystick`: unpressed, zero output, no tracked finger,
default tip color, base and tip back at the default center, hidden. -/
def _reset_joystick (joystick : VirtualJoystick) : VirtualJoystick :=
  { joystick with
    is_pressed := false
    output := ⟨0, 0⟩
    _touch_index := -1
    _tip_color := joystick._default_tip_color
    _base_center := joystick._base_default_center
    _tip_center := joystick._base_default_center
    _hidden := true }

/-- Embeds the successful path of `VirtualJoystick_Create` (texture and
allocation failures concern the unmodelled rendering collaborator). -/
def VirtualJoystick_Create (x y width height window_width window_height : Int) :
    VirtualJoystick :=
  let base_radius : Int := truncInt (min (width : ℝ) (height : ℝ) * 0.25)
  let base_default : SDL_FPoint := ⟨(x : ℝ) + (width : ℝ) / 2, (y : ℝ) + (height : ℝ) / 2⟩
  { joystick_area := ⟨x, y, width, height⟩
    _window_width := window_width
    _window_height := window_height
    pressed_color := ⟨100, 100, 100, 180⟩
    deadzone_size := 10
    clampzone_size := 75
    joystick_mode := JoystickMode.JOYSTICK_MODE_DYNAMIC
    is_pressed := false
    output := ⟨0, 0⟩
    _touch_index := -1
    _base_radius := base_radius
    _tip_radius := truncInt ((base_radius : ℝ) * 0.6)
    _default_tip_color := ⟨200, 200, 200, 180⟩
    _tip_color := ⟨200, 200, 200, 180⟩
    _base_default_center := base_default
    _base_center := base_default
    _tip_center := base_default
    _hidden := true }

/-- Embeds `VirtualJoystick_SetWindowSize` (the C null-pointer guard is a
pointer concern absent from the value-level model). -/
def VirtualJoystick_SetWindowSize (joystick : VirtualJoystick) (width height : Int) :
    VirtualJoystick :=
  { joystick with _window_width := width, _window_height := height }

/-- The pixel-space touch position computed inside `VirtualJoystick_HandleEvent`:
normalized coordinates scaled by the stored window size. -/
def event_touch_position (joystick : VirtualJoystick) (event : SDL_Event) : SDL_FPoint :=
  ⟨event.tfinger.x * (joystick._window_width : ℝ),
    event.tfinger.y * (joystick._window_height : ℝ)⟩

/-- The touch-down activation gate of `VirtualJoystick_HandleEvent`: the
touch lies in the area, no finger is tracked, and the mode-specific test
(`should_activate`) holds. -/
def activation_gate (joystick : VirtualJoystick) (touch_pos : SDL_FPoint) : Prop :=
  _is_point_inside_joystick_area joystick touch_pos ∧ joystick._touch_index = -1 ∧
  (joystick.joystick_mode = JoystickMode.JOYSTICK_MODE_DYNAMIC ∨
   joystick.joystick_mode = JoystickMode.JOYSTICK_MODE_FOLLOWING ∨
   (joystick.joystick_mode = JoystickMode.JOYSTICK_MODE_FIXED ∧
    _is_point_inside_base joystick touch_pos))

/-- Embeds `VirtualJoystick_HandleEvent`: the hidden fast-reject, then the
`switch` over finger-down / finger-up / finger-motion. -/
def VirtualJoystick_HandleEvent (joystick : VirtualJoystick) (event : SDL_Event) :
    VirtualJoystick :=
  if joystick._hidden = true ∧ event.type ≠ SDL_EventType.SDL_FINGERDOWN then joystick
  else
    match event.type with
    | SDL_EventType.SDL_FINGERDOWN =>
      let touch_pos := event_touch_position joystick event
      if _is_point_inside_joystick_area joystick touch_pos ∧ joystick._touch_index = -1 then
        if joystick.joystick_mode = JoystickMode.JOYSTICK_MODE_DYNAMIC ∨
            joystick.joystick_mode = JoystickMode.JOYSTICK_MODE_FOLLOWING ∨
            (joystick.joystick_mode = JoystickMode.JOYSTICK_MODE_FIXED ∧
             _is_point_inside_base joystick touch_pos) then
          let moved :=
            if joystick.joystick_mode = JoystickMode.JOYSTICK_MODE_DYNAMIC ∨
                joystick.joystick_mode = JoystickMode.JOYSTICK_MODE_FOLLOWING
            then { joystick with _base_center := touch_pos }
            else joystick
          _update_joystick_logic
            { moved with
              _touch_index := event.tfinger.fingerId
              _hidden := false
              _tip_color := moved.pressed_color }
            touch_pos
        else joystick
      else joystick
    | SDL_EventType.SDL_FINGERUP =>
      if event.tfinger.fingerId = joystick._touch_index then _reset_joystick joystick
      else joystick
    | SDL_EventType.SDL_FINGERMOTION =>
      if event.tfinger.fingerId = joystick._touch_index then
        _update_joystick_logic joystick (event_touch_position joystick event)
      else joystick
    | SDL_EventType.SDL_OTHER_EVENT => joystick

/-- Spec invariant: the output vector has magnitude in `[0,1]` and is
exactly `(0,0)` whenever the pressed flag is false. -/
def OutputInvariant (joystick : VirtualJoystick) : Prop :=
  0 ≤ Vector2_Length joystick.output ∧ Vector2_Length joystick.output ≤ 1 ∧
  (joystick.is_pressed = false → joystick.output = ⟨0, 0⟩)

/-- Spec invariant: the tip center is within `clampzone_size` of the base
center (Euclidean distance). -/
def TipInvariant (joystick : VirtualJoystick) : Prop :=
  Vector2_Length
    ⟨joystick._tip_center.x - joystick._base_center.x,
      joystick._tip_center.y - joystick._base_center.y⟩ ≤ joystick.clampzone_size

/-- Spec invariant: when hidden, the joystick is unpressed, tracks no
finger, and base and tip sit at the configured default center. -/
def HiddenInvariant (joystick : VirtualJoystick) : Prop :=
  joystick._hidden = true →
    joystick.is_pressed = false ∧ joystick._touch_index = -1 ∧
    joystick._base_center = joystick._base_default_center ∧
    joystick._tip_center = joystick._base_default_center

/-- Scenario state for claim C4: a joystick created over area
`(0,0,200,600)` with window size `200 × 600` (defaults: Dynamic mode,
clampzone 75, deadzone 10). -/
def jC4_start : VirtualJoystick := VirtualJoystick_Create 0 0 200 600 200 600

/-- Scenario event for claim C4: finger 7 touches down at pixel `(50,50)`
(normalized `(1/4, 1/12)` of the `200 × 600` window). -/
def eC4_down : SDL_Event := ⟨SDL_EventType.SDL_FINGERDOWN, ⟨7, 1/4, 1/12⟩⟩

/-- Scenario state for claim C4 after the touch-down. -/
def jC4_afterDown : VirtualJoystick := VirtualJoystick_HandleEvent jC4_start eC4_down

/-- Scenario event for claim C4: finger 7 moves to pixel `(50,100)`
(normalized `(1/4, 1/6)`). -/
def eC4_move : SDL_Event := ⟨SDL_EventType.SDL_FINGERMOTION, ⟨7, 1/4, 1/6⟩⟩

/-- Scenario state for claim C4 after the motion. -/
def jC4_afterMove : VirtualJoystick := VirtualJoystick_HandleEvent jC4_afterDown eC4_move

/-- Scenario event for claim C4: finger 7 is lifted. -/
def eC4_up : SDL_Event := ⟨SDL_EventType.SDL_FINGERUP, ⟨7, 1/4, 1/6⟩⟩

/-- Scenario state for claim C4 after the touch-up. -/
def jC4_afterUp : VirtualJoystick := VirtualJoystick_HandleEvent jC4_afterMove eC4_up

/-- The state built by the touch-down branch for the C4 scenario, just
before `_update_joystick_logic` runs: base moved to the touch position,
finger 7 tracked, unhidden, pressed color applied. -/
def jC4_mid : VirtualJoystick :=
  { jC4_start with
    _base_center := ⟨50, 50⟩
    _touch_index := 7
    _hidden := false
    _tip_color := jC4_start.pressed_color }

/-- Witness instance: a freshly created joystick whose dead-zone has been
raised above its clamp-zone (owner-mutable configuration), for claim C2. -/
def jC2_misconfigured : VirtualJoystick :=
  { VirtualJoystick_Create 0 0 200 600 200 600 with deadzone_size := 80 }

/-- Witness instance: a freshly created joystick switched to Following
mode, for claim C3. -/
def jC3_following : VirtualJoystick :=
  { VirtualJoystick_Create 0 0 200 600 200 600 with
    joystick_mode := JoystickMode.JOYSTICK_MODE_FOLLOWING }

/-- Witness instance: a freshly created joystick switched to Fixed mode,
for claim C7. -/
def jC7_fixed : VirtualJoystick :=
  { VirtualJoystick_Create 0 0 200 600 200 600 with
    joystick_mode := JoystickMode.JOYSTICK_MODE_FIXED }

/-- Witness event for claim C7: finger 3 touches down at normalized
`(1/20, 1/20)`, i.e. pixel `(10, 30)` — inside the area, outside the base
circle. -/
def eC7_down : SDL_Event := ⟨SDL_EventType.SDL_FINGERDOWN, ⟨3, 1/20, 1/20⟩⟩

end

/-! ### Vector geometry lemmas -/

theorem Vector2_Length_nonneg (v : Vector2) : 0 ≤ Vector2_Length v :=
  Real.sqrt_nonneg _

theorem Vector2_Length_mul_self (v : Vector2) :
    Vector2_Length v * Vector2_Length v = v.x * v.x + v.y * v.y :=
  Real.mul_self_sqrt (add_nonneg (mul_self_nonneg _) (mul_self_nonneg _))

theorem Vector2_Length_zero_vec : Vector2_Length ⟨0, 0⟩ = 0 := by
  unfold Vector2_Length
  norm_num

theorem Vector2_Length_eq_zero_of_sq_zero (v : Vector2)
    (h : v.x * v.x + v.y * v.y = 0) : Vector2_Length v = 0 := by
  unfold Vector2_Length
  rw [h, Real.sqrt_zero]

theorem Vector2_Normalize_length (v : Vector2) (h : Vector2_Length v ≠ 0) :
    Vector2_Length (Vector2_Normalize v) = 1 := by
  have hpos : 0 < Vector2_Length v := (Vector2_Length_nonneg v).lt_of_ne (Ne.symm h)
  unfold Vector2_Normalize
  rw [if_neg h]
  show Real.sqrt (v.x / Vector2_Length v * (v.x / Vector2_Length v) +
      v.y / Vector2_Length v * (v.y / Vector2_Length v)) = 1
  have hsum : v.x / Vector2_Length v * (v.x / Vector2_Length v) +
      v.y / Vector2_Length v * (v.y / Vector2_Length v) =
      (v.x * v.x + v.y * v.y) / (Vector2_Length v * Vector2_Length v) := by
    field_simp
  rw [hsum, ← Vector2_Length_mul_self v,
    div_self (mul_ne_zero h h), Real.sqrt_one]

theorem Vector2_Length_comp_mul (v : Vector2) (t : ℝ) :
    Vector2_Length ⟨v.x * t, v.y * t⟩ = Vector2_Length v * |t| := by
  unfold Vector2_Length
  show Real.sqrt (v.x * t * (v.x * t) + v.y * t * (v.y * t)) = _
  rw [show v.x * t * (v.x * t) + v.y * t * (v.y * t) =
      (v.x * v.x + v.y * v.y) * (t * t) by ring,
    Real.sqrt_mul (add_nonneg (mul_self_nonneg _) (mul_self_nonneg _)),
    Real.sqrt_mul_self_eq_abs]

theorem Vector2_LimitLength_eq_self (v : Vector2) (m : ℝ)
    (h : Vector2_Length v ≤ m) : Vector2_LimitLength v m = v := by
  unfold Vector2_LimitLength
  rw [if_neg (not_lt.mpr h)]

theorem Vector2_LimitLength_length_of_gt (v : Vector2) (m : ℝ)
    (hm : 0 ≤ m) (h : Vector2_Length v > m) :
    Vector2_Length (Vector2_LimitLength v m) = m := by
  have hpos : 0 < Vector2_Length v := lt_of_le_of_lt hm h
  have hne : Vector2_Length v ≠ 0 := ne_of_gt hpos
  unfold Vector2_LimitLength
  rw [if_pos h]
  show Vector2_Length ⟨v.x / Vector2_Length v * m, v.y / Vector2_Length v * m⟩ = m
  have hx : v.x / Vector2_Length v * m = v.x * (m / Vector2_Length v) := by ring
  have hy : v.y / Vector2_Length v * m = v.y * (m / Vector2_Length v) := by ring
  rw [show (⟨v.x / Vector2_Length v * m, v.y / Vector2_Length v * m⟩ : Vector2) =
      ⟨v.x * (m / Vector2_Length v), v.y * (m / Vector2_Length v)⟩ by rw [hx, hy],
    Vector2_Length_comp_mul v (m / Vector2_Length v),
    abs_of_nonneg (div_nonneg hm (le_of_lt hpos))]
  field_simp

theorem Vector2_LimitLength_length_le (v : Vector2) (m : ℝ) (hm : 0 ≤ m) :
    Vector2_Length (Vector2_LimitLength v m) ≤ m := by
  rcases le_or_lt (Vector2_Length v) m with h | h
  · rw [Vector2_LimitLength_eq_self v m h]
    exact h
  · exact le_of_eq (Vector2_LimitLength_length_of_gt v m hm h)

/-! ### Projection lemmas for the update routine -/

theorem update_base_center (j : VirtualJoystick) (p : SDL_FPoint) :
    (_update_joystick_logic j p)._base_center =
      if j.joystick_mode = JoystickMode.JOYSTICK_MODE_FOLLOWING ∧
          Vector2_Length (vector_from_base_center j p) > j.clampzone_size
      then ⟨p.x - (clamped_vector j p).x, p.y - (clamped_vector j p).y⟩
      else j._base_center := by
  unfold _update_joystick_logic
  dsimp only
  split_ifs <;> rfl

theorem update_tip_center (j : VirtualJoystick) (p : SDL_FPoint) :
    (_update_joystick_logic j p)._tip_center =
      ⟨(_update_joystick_logic j p)._base_center.x + (clamped_vector j p).x,
        (_update_joystick_logic j p)._base_center.y + (clamped_vector j p).y⟩ := by
  unfold _update_joystick_logic
  dsimp only
  split_ifs <;> rfl

theorem update_output (j : VirtualJoystick) (p : SDL_FPoint) :
    (_update_joystick_logic j p).output =
      if Vector2_Length (clamped_vector j p) > j.deadzone_size then
        if j.clampzone_size - j.deadzone_size ≤ 0 then (⟨0, 0⟩ : Vector2)
        else
          ⟨(Vector2_Normalize (clamped_vector j p)).x *
              ((Vector2_Length (clamped_vector j p) - j.deadzone_size) /
               (j.clampzone_size - j.deadzone_size)),
            (Vector2_Normalize (clamped_vector j p)).y *
              ((Vector2_Length (clamped_vector j p) - j.deadzone_size) /
               (j.clampzone_size - j.deadzone_size))⟩
      else ⟨0, 0⟩ := by
  unfold _update_joystick_logic
  dsimp only
  split_ifs <;> rfl

theorem update_is_pressed (j : VirtualJoystick) (p : SDL_FPoint) :
    (_update_joystick_logic j p).is_pressed =
      if Vector2_Length (clamped_vector j p) > j.deadzone_size then true else false := by
  unfold _update_joystick_logic
  dsimp only
  split_ifs <;> rfl

theorem update_preserves_fields (j : VirtualJoystick) (p : SDL_FPoint) :
    (_update_joystick_logic j p).joystick_area = j.joystick_area ∧
    (_update_joystick_logic j p).pressed_color = j.pressed_color ∧
    (_update_joystick_logic j p).deadzone_size = j.deadzone_size ∧
    (_update_joystick_logic j p).clampzone_size = j.clampzone_size ∧
    (_update_joystick_logic j p).joystick_mode = j.joystick_mode ∧
    (_update_joystick_logic j p)._touch_index = j._touch_index ∧
    (_update_joystick_logic j p)._base_default_center = j._base_default_center ∧
    (_update_joystick_logic j p)._default_tip_color = j._default_tip_color ∧
    (_update_joystick_logic j p)._tip_color = j._tip_color ∧
    (_update_joystick_logic j p)._base_radius = j._base_radius ∧
    (_update_joystick_logic j p)._tip_radius = j._tip_radius ∧
    (_update_joystick_logic j p)._hidden = j._hidden ∧
    (_update_joystick_logic j p)._window_width = j._window_width ∧
    (_update_joystick_logic j p)._window_height = j._window_height := by
  unfold _update_joystick_logic
  dsimp only
  split_ifs <;>
    exact ⟨rfl, rfl, rfl, rfl, rfl, rfl, rfl, rfl, rfl, rfl, rfl, rfl, rfl, rfl⟩

/-! ### Invariant lemmas for the three reusable invariants -/

theorem outputInvariant_update (j : VirtualJoystick) (p : SDL_FPoint)
    (hc : 0 ≤ j.clampzone_size) : OutputInvariant (_update_joystick_logic j p) := by
  have hcl : Vector2_Length (clamped_vector j p) ≤ j.clampzone_size :=
    Vector2_LimitLength_length_le _ _ hc
  unfold OutputInvariant
  rw [update_output, update_is_pressed]
  by_cases h1 : Vector2_Length (clamped_vector j p) > j.deadzone_size
  · rw [if_pos h1, if_pos h1]
    by_cases h2 : j.clampzone_size - j.deadzone_size ≤ 0
    · rw [if_pos h2]
      refine ⟨Vector2_Length_nonneg _, ?_, ?_⟩
      · rw [Vector2_Length_zero_vec]; norm_num
      · intro hfalse; cases hfalse
    · rw [if_neg h2]
      refine ⟨Vector2_Length_nonneg _, ?_, ?_⟩
      · set t : ℝ := (Vector2_Length (clamped_vector j p) - j.deadzone_size) /
          (j.clampzone_size - j.deadzone_size) with ht
        have hrange : 0 < j.clampzone_size - j.deadzone_size := by linarith [not_le.mp h2]
        have hteq : Vector2_Length
            ⟨(Vector2_Normalize (clamped_vector j p)).x * t,
              (Vector2_Normalize (clamped_vector j p)).y * t⟩ =
            Vector2_Length (Vector2_Normalize (clamped_vector j p)) * |t| :=
          Vector2_Length_comp_mul _ t
        rw [hteq]
        have htpos : 0 ≤ t := by
          rw [ht]
          exact div_nonneg (by linarith) (le_of_lt hrange)
        have htle : t ≤ 1 := by
          rw [ht, div_le_one hrange]
          linarith
        rw [abs_of_nonneg htpos]
        by_cases hz : Vector2_Length (clamped_vector j p) = 0
        · rw [Vector2_Normalize, if_pos hz, Vector2_Length_zero_vec]
          linarith
        · rw [Vector2_Normalize_length _ hz, one_mul]
          exact htle
      · intro hfalse; cases hfalse
  · rw [if_neg h1, if_neg h1]
    exact ⟨Vector2_Length_nonneg _, by rw [Vector2_Length_zero_vec]; norm_num, fun _ => rfl⟩

theorem outputInvariant_reset (j : VirtualJoystick) :
    OutputInvariant (_reset_joystick j) :=
  ⟨Vector2_Length_nonneg _, by rw [show (_reset_joystick j).output = ⟨0, 0⟩ from rfl,
      Vector2_Length_zero_vec]; norm_num, fun _ => rfl⟩

theorem outputInvariant_create (x y w h ww wh : Int) :
    OutputInvariant (VirtualJoystick_Create x y w h ww wh) :=
  ⟨Vector2_Length_nonneg _,
    by rw [show (VirtualJoystick_Create x y w h ww wh).output = ⟨0, 0⟩ from rfl,
      Vector2_Length_zero_vec]; norm_num,
    fun _ => rfl⟩

theorem outputInvariant_handleEvent (j : VirtualJoystick) (e : SDL_Event)
    (hc : 0 ≤ j.clampzone_size) (hj : OutputInvariant j) :
    OutputInvariant (VirtualJoystick_HandleEvent j e) := by
  unfold VirtualJoystick_HandleEvent
  by_cases hgate : j._hidden = true ∧ e.type ≠ SDL_EventType.SDL_FINGERDOWN
  · rw [if_pos hgate]; exact hj
  · rw [if_neg hgate]
    rcases e with ⟨t, f⟩
    cases t
    · dsimp only
      split_ifs <;> first
        | exact hj
        | exact outputInvariant_update _ _ hc
    · dsimp only
      split_ifs
      · exact outputInvariant_reset j
      · exact hj
    · dsimp only
      split_ifs
      · exact outputInvariant_update _ _ hc
      · exact hj
    · exact hj

theorem update_clampzone (j : VirtualJoystick) (p : SDL_FPoint) :
    (_update_joystick_logic j p).clampzone_size = j.clampzone_size := by
  obtain ⟨-, -, -, h, -, -, -, -, -, -, -, -, -, -⟩ := update_preserves_fields j p
  exact h

theorem update_hidden (j : VirtualJoystick) (p : SDL_FPoint) :
    (_update_joystick_logic j p)._hidden = j._hidden := by
  obtain ⟨-, -, -, -, -, -, -, -, -, -, -, h, -, -⟩ := update_preserves_fields j p
  exact h

theorem update_touch_index (j : VirtualJoystick) (p : SDL_FPoint) :
    (_update_joystick_logic j p)._touch_index = j._touch_index := by
  obtain ⟨-, -, -, -, -, h, -, -, -, -, -, -, -, -⟩ := update_preserves_fields j p
  exact h

theorem tipInvariant_update (j : VirtualJoystick) (p : SDL_FPoint)
    (hc : 0 ≤ j.clampzone_size) : TipInvariant (_update_joystick_logic j p) := by
  unfold TipInvariant
  have harg :
      (⟨(_update_joystick_logic j p)._tip_center.x - (_update_joystick_logic j p)._base_center.x,
        (_update_joystick_logic j p)._tip_center.y - (_update_joystick_logic j p)._base_center.y⟩ :
        Vector2) = clamped_vector j p := by
    rw [update_tip_center]
    ext
    · dsimp only
      ring
    · dsimp only
      ring
  rw [harg, update_clampzone]
  exact Vector2_LimitLength_length_le _ _ hc

theorem tipInvariant_reset (j : VirtualJoystick) (hc : 0 ≤ j.clampzone_size) :
    TipInvariant (_reset_joystick j) := by
  unfold TipInvariant _reset_joystick
  dsimp only
  rw [show (⟨j._base_default_center.x - j._base_default_center.x,
      j._base_default_center.y - j._base_default_center.y⟩ : Vector2) = ⟨0, 0⟩ by
    ext <;> dsimp only <;> ring]
  rw [Vector2_Length_zero_vec]
  exact hc

theorem tipInvariant_create (x y w h ww wh : Int) :
    TipInvariant (VirtualJoystick_Create x y w h ww wh) := by
  unfold TipInvariant VirtualJoystick_Create
  dsimp only
  rw [show (⟨(x : ℝ) + (w : ℝ) / 2 - ((x : ℝ) + (w : ℝ) / 2),
      (y : ℝ) + (h : ℝ) / 2 - ((y : ℝ) + (h : ℝ) / 2)⟩ : Vector2) = ⟨0, 0⟩ by
    ext <;> dsimp only <;> ring]
  rw [Vector2_Length_zero_vec]
  norm_num

theorem tipInvariant_handleEvent (j : VirtualJoystick) (e : SDL_Event)
    (hc : 0 ≤ j.clampzone_size) (hj : TipInvariant j) :
    TipInvariant (VirtualJoystick_HandleEvent j e) := by
  unfold VirtualJoystick_HandleEvent
  by_cases hgate : j._hidden = true ∧ e.type ≠ SDL_EventType.SDL_FINGERDOWN
  · rw [if_pos hgate]; exact hj
  · rw [if_neg hgate]
    rcases e with ⟨t, f⟩
    cases t
    · dsimp only
      split_ifs <;> first
        | exact hj
        | exact tipInvariant_update _ _ hc
    · dsimp only
      split_ifs
      · exact tipInvariant_reset j hc
      · exact hj
    · dsimp only
      split_ifs
      · exact tipInvariant_update _ _ hc
      · exact hj
    · exact hj

theorem hiddenInvariant_create (x y w h ww wh : Int) :
    HiddenInvariant (VirtualJoystick_Create x y w h ww wh) :=
  fun _ => ⟨rfl, rfl, rfl, rfl⟩

theorem hiddenInvariant_reset (j : VirtualJoystick) :
    HiddenInvariant (_reset_joystick j) :=
  fun _ => ⟨rfl, rfl, rfl, rfl⟩

theorem hiddenInvariant_setWindowSize (j : VirtualJoystick) (w h : Int)
    (hj : HiddenInvariant j) :
    HiddenInvariant (VirtualJoystick_SetWindowSize j w h) :=
  fun hh => hj hh

theorem hiddenInvariant_handleEvent (j : VirtualJoystick) (e : SDL_Event)
    (hj : HiddenInvariant j) :
    HiddenInvariant (VirtualJoystick_HandleEvent j e) := by
  unfold VirtualJoystick_HandleEvent
  by_cases hgate : j._hidden = true ∧ e.type ≠ SDL_EventType.SDL_FINGERDOWN
  · rw [if_pos hgate]; exact hj
  · rw [if_neg hgate]
    rcases e with ⟨t, f⟩
    cases t
    · dsimp only
      split_ifs <;> first
        | exact hj
        | (intro hh; rw [update_hidden] at hh; simp at hh)
    · dsimp only
      split_ifs
      · exact hiddenInvariant_reset j
      · exact hj
    · dsimp only
      split_ifs
      · intro hh
        rw [update_hidden] at hh
        exact absurd ⟨hh, by simp⟩ hgate
      · exact hj
    · exact hj

/-! ### Claim theorems -/

/-- C1: After every Controller operation (creation, any handled event,
update, reset), the output vector has magnitude in `[0, 1]`, and whenever
the pressed flag is false the output is exactly `(0,0)`.  Creation
establishes the invariant and each operation preserves it; the update
steps assume the clamp-zone radius is nonnegative, as a radius is. -/
theorem C1_output_invariant (j : VirtualJoystick) (p : SDL_FPoint) (e : SDL_Event)
    (x y w h ww wh : Int) (hc : 0 ≤ j.clampzone_size) (hj : OutputInvariant j) :
    OutputInvariant (VirtualJoystick_Create x y w h ww wh) ∧
    OutputInvariant (_update_joystick_logic j p) ∧
    OutputInvariant (_reset_joystick j) ∧
    OutputInvariant (VirtualJoystick_HandleEvent j e) :=
  ⟨outputInvariant_create x y w h ww wh, outputInvariant_update j p hc,
    outputInvariant_reset j, outputInvariant_handleEvent j e hc hj⟩

/-- Witness for C1 at a freshly created joystick. -/
theorem C1_output_invariant_witness :
    0 ≤ (VirtualJoystick_Create 0 0 200 600 200 600).clampzone_size ∧
    OutputInvariant (VirtualJoystick_Create 0 0 200 600 200 600) ∧
    (OutputInvariant (VirtualJoystick_Create 0 0 200 600 200 600) ∧
     OutputInvariant
       (_update_joystick_logic (VirtualJoystick_Create 0 0 200 600 200 600) ⟨0, 0⟩) ∧
     OutputInvariant (_reset_joystick (VirtualJoystick_Create 0 0 200 600 200 600)) ∧
     OutputInvariant (VirtualJoystick_HandleEvent (VirtualJoystick_Create 0 0 200 600 200 600)
       ⟨SDL_EventType.SDL_OTHER_EVENT, ⟨0, 0, 0⟩⟩)) := by
  have hc : 0 ≤ (VirtualJoystick_Create 0 0 200 600 200 600).clampzone_size := by
    show (0 : ℝ) ≤ 75
    norm_num
  have hj : OutputInvariant (VirtualJoystick_Create 0 0 200 600 200 600) :=
    outputInvariant_create 0 0 200 600 200 600
  exact ⟨hc, hj, C1_output_invariant _ ⟨0, 0⟩ _ 0 0 200 600 200 600 hc hj⟩

/-- C2: If the configuration is inconsistent (`deadzone_size ≥
clampzone_size`), the update routine sets the output to exactly `(0,0)`
for every touch position; the division is never reached. -/
theorem C2_misconfiguration_zero_output (j : VirtualJoystick) (p : SDL_FPoint)
    (h : j.clampzone_size ≤ j.deadzone_size) :
    (_update_joystick_logic j p).output = ⟨0, 0⟩ := by
  rw [update_output]
  by_cases h1 : Vector2_Length (clamped_vector j p) > j.deadzone_size
  · rw [if_pos h1, if_pos (by linarith : j.clampzone_size - j.deadzone_size ≤ 0)]
  · rw [if_neg h1]

/-- Witness for C2 at a joystick whose dead-zone (80) exceeds its
clamp-zone (75), touched far from the base. -/
theorem C2_misconfiguration_zero_output_witness :
    jC2_misconfigured.clampzone_size ≤ jC2_misconfigured.deadzone_size ∧
    (_update_joystick_logic jC2_misconfigured ⟨0, 0⟩).output = ⟨0, 0⟩ := by
  have h : jC2_misconfigured.clampzone_size ≤ jC2_misconfigured.deadzone_size := by
    show (75 : ℝ) ≤ 80
    norm_num
  exact ⟨h, C2_misconfiguration_zero_output jC2_misconfigured ⟨0, 0⟩ h⟩

/-- C5: After every Controller operation (creation, any handled event,
update, reset), the tip center is within `clampzone_size` (Euclidean
distance) of the base center; the operations on an existing state assume
the clamp-zone radius is nonnegative. -/
theorem C5_tip_within_clampzone (j : VirtualJoystick) (p : SDL_FPoint) (e : SDL_Event)
    (x y w h ww wh : Int) (hc : 0 ≤ j.clampzone_size) (hj : TipInvariant j) :
    TipInvariant (VirtualJoystick_Create x y w h ww wh) ∧
    TipInvariant (_update_joystick_logic j p) ∧
    TipInvariant (_reset_joystick j) ∧
    TipInvariant (VirtualJoystick_HandleEvent j e) :=
  ⟨tipInvariant_create x y w h ww wh, tipInvariant_update j p hc,
    tipInvariant_reset j hc, tipInvariant_handleEvent j e hc hj⟩

/-- Witness for C5 at a freshly created joystick. -/
theorem C5_tip_within_clampzone_witness :
    0 ≤ (VirtualJoystick_Create 0 0 200 600 200 600).clampzone_size ∧
    TipInvariant (VirtualJoystick_Create 0 0 200 600 200 600) ∧
    (TipInvariant (VirtualJoystick_Create 0 0 200 600 200 600) ∧
     TipInvariant
       (_update_joystick_logic (VirtualJoystick_Create 0 0 200 600 200 600) ⟨0, 0⟩) ∧
     TipInvariant (_reset_joystick (VirtualJoystick_Create 0 0 200 600 200 600)) ∧
     TipInvariant (VirtualJoystick_HandleEvent (VirtualJoystick_Create 0 0 200 600 200 600)
       ⟨SDL_EventType.SDL_OTHER_EVENT, ⟨0, 0, 0⟩⟩)) := by
  have hc : 0 ≤ (VirtualJoystick_Create 0 0 200 600 200 600).clampzone_size := by
    show (0 : ℝ) ≤ 75
    norm_num
  have hj : TipInvariant (VirtualJoystick_Create 0 0 200 600 200 600) :=
    tipInvariant_create 0 0 200 600 200 600
  exact ⟨hc, hj, C5_tip_within_clampzone _ ⟨0, 0⟩ _ 0 0 200 600 200 600 hc hj⟩

/-- C6: After every Controller operation, `hidden = true` implies the
pressed flag is false, the tracked touch identifier is the `-1` sentinel,
and base and tip are at the configured default center.  Creation and reset
establish it; event handling and the window-size setter preserve it. -/
theorem C6_hidden_implies_idle (j : VirtualJoystick) (e : SDL_Event)
    (x y w h ww wh wi hi : Int) (hj : HiddenInvariant j) :
    HiddenInvariant (VirtualJoystick_Create x y w h ww wh) ∧
    HiddenInvariant (_reset_joystick j) ∧
    HiddenInvariant (VirtualJoystick_HandleEvent j e) ∧
    HiddenInvariant (VirtualJoystick_SetWindowSize j wi hi) :=
  ⟨hiddenInvariant_create x y w h ww wh, hiddenInvariant_reset j,
    hiddenInvariant_handleEvent j e hj, hiddenInvariant_setWindowSize j wi hi hj⟩

/-- Witness for C6 at a freshly created joystick. -/
theorem C6_hidden_implies_idle_witness :
    HiddenInvariant (VirtualJoystick_Create 0 0 200 600 200 600) ∧
    (HiddenInvariant (VirtualJoystick_Create 0 0 200 600 200 600) ∧
     HiddenInvariant (_reset_joystick (VirtualJoystick_Create 0 0 200 600 200 600)) ∧
     HiddenInvariant (VirtualJoystick_HandleEvent (VirtualJoystick_Create 0 0 200 600 200 600)
       ⟨SDL_EventType.SDL_OTHER_EVENT, ⟨0, 0, 0⟩⟩) ∧
     HiddenInvariant
       (VirtualJoystick_SetWindowSize (VirtualJoystick_Create 0 0 200 600 200 600) 800 480)) := by
  have hj : HiddenInvariant (VirtualJoystick_Create 0 0 200 600 200 600) :=
    hiddenInvariant_create 0 0 200 600 200 600
  exact ⟨hj, C6_hidden_implies_idle _ _ 0 0 200 600 200 600 800 480 hj⟩

/-- C7: A touch-down event that fails the activation gate leaves the
whole Controller state unchanged; in particular a second touch-down while
a touch is already tracked is ignored, and in Fixed mode a touch-down
outside the base circle does not activate. -/
theorem C7_failed_touchdown_noop (j : VirtualJoystick) (e : SDL_Event)
    (ht : e.type = SDL_EventType.SDL_FINGERDOWN) :
    (¬ activation_gate j (event_touch_position j e) → VirtualJoystick_HandleEvent j e = j) ∧
    (j._touch_index ≠ -1 → VirtualJoystick_HandleEvent j e = j) ∧
    (j.joystick_mode = JoystickMode.JOYSTICK_MODE_FIXED →
      ¬ _is_point_inside_base j (event_touch_position j e) →
      VirtualJoystick_HandleEvent j e = j) := by
  have hmain : ¬ activation_gate j (event_touch_position j e) →
      VirtualJoystick_HandleEvent j e = j := by
    intro hg
    unfold VirtualJoystick_HandleEvent
    rw [if_neg (by rw [ht]; simp)]
    rcases e with ⟨t, f⟩
    dsimp only at ht
    subst ht
    dsimp only
    by_cases h1 : _is_point_inside_joystick_area j
        (event_touch_position j ⟨SDL_EventType.SDL_FINGERDOWN, f⟩) ∧ j._touch_index = -1
    · rw [if_pos h1]
      by_cases h2 : j.joystick_mode = JoystickMode.JOYSTICK_MODE_DYNAMIC ∨
          j.joystick_mode = JoystickMode.JOYSTICK_MODE_FOLLOWING ∨
          (j.joystick_mode = JoystickMode.JOYSTICK_MODE_FIXED ∧
           _is_point_inside_base j (event_touch_position j ⟨SDL_EventType.SDL_FINGERDOWN, f⟩))
      · exact absurd ⟨h1.1, h1.2, h2⟩ hg
      · rw [if_neg h2]
    · rw [if_neg h1]
  refine ⟨hmain, ?_, ?_⟩
  · intro hidx
    exact hmain (fun hg => hidx hg.2.1)
  · intro hfix hbase
    refine hmain (fun hg => ?_)
    rcases hg.2.2 with hdyn | hfol | hfb
    · rw [hfix] at hdyn; cases hdyn
    · rw [hfix] at hfol; cases hfol
    · exact hbase hfb.2

/-- Witness for C7: a Fixed-mode joystick receiving a touch-down event. -/
theorem C7_failed_touchdown_noop_witness :
    eC7_down.type = SDL_EventType.SDL_FINGERDOWN ∧
    ((¬ activation_gate jC7_fixed (event_touch_position jC7_fixed eC7_down) →
        VirtualJoystick_HandleEvent jC7_fixed eC7_down = jC7_fixed) ∧
     (jC7_fixed._touch_index ≠ -1 →
        VirtualJoystick_HandleEvent jC7_fixed eC7_down = jC7_fixed) ∧
     (jC7_fixed.joystick_mode = JoystickMode.JOYSTICK_MODE_FIXED →
        ¬ _is_point_inside_base jC7_fixed (event_touch_position jC7_fixed eC7_down) →
        VirtualJoystick_HandleEvent jC7_fixed eC7_down = jC7_fixed)) :=
  ⟨rfl, C7_failed_touchdown_noop jC7_fixed eC7_down rfl⟩

/-- C8: `normalize` of a zero-length vector is `(0,0)`; `clampToLength`
with a nonnegative bound yields a vector of length at most the bound, and
returns its input unchanged whenever the input is already short enough. -/
theorem C8_vector_helpers (v : Vector2) (m : ℝ) (hm : 0 ≤ m) :
    (Vector2_Length v = 0 → Vector2_Normalize v = ⟨0, 0⟩) ∧
    Vector2_Length (Vector2_LimitLength v m) ≤ m ∧
    (Vector2_Length v ≤ m → Vector2_LimitLength v m = v) :=
  ⟨fun h0 => by unfold Vector2_Normalize; rw [if_pos h0],
    Vector2_LimitLength_length_le v m hm,
    fun hle => Vector2_LimitLength_eq_self v m hle⟩

/-- Witness for C8 at `v = (3,4)`, `max = 2`. -/
theorem C8_vector_helpers_witness :
    (0 : ℝ) ≤ 2 ∧
    ((Vector2_Length ⟨3, 4⟩ = 0 → Vector2_Normalize ⟨3, 4⟩ = ⟨0, 0⟩) ∧
     Vector2_Length (Vector2_LimitLength ⟨3, 4⟩ 2) ≤ 2 ∧
     (Vector2_Length ⟨3, 4⟩ ≤ 2 → Vector2_LimitLength ⟨3, 4⟩ 2 = ⟨3, 4⟩)) :=
  ⟨by norm_num, C8_vector_helpers ⟨3, 4⟩ 2 (by norm_num)⟩

/-- C9: The reset routine is idempotent, and a single reset produces the
advertised idle state: unpressed, zero output, no tracked touch, default
tip color, base and tip at the configured default center, hidden. -/
theorem C9_reset_idempotent (j : VirtualJoystick) :
    _reset_joystick (_reset_joystick j) = _reset_joystick j ∧
    (_reset_joystick j).is_pressed = false ∧
    (_reset_joystick j).output = ⟨0, 0⟩ ∧
    (_reset_joystick j)._touch_index = -1 ∧
    (_reset_joystick j)._tip_color = j._default_tip_color ∧
    (_reset_joystick j)._base_center = j._base_default_center ∧
    (_reset_joystick j)._tip_center = j._base_default_center ∧
    (_reset_joystick j)._hidden = true :=
  ⟨rfl, rfl, rfl, rfl, rfl, rfl, rfl, rfl⟩

/-- C10: The window-size setter writes only the stored window width and
height; every other field of the state — configuration, live state,
positions, tracked touch, visibility — is unchanged (in particular it does
not reset the joystick). -/
theorem C10_setWindowSize_frame (j : VirtualJoystick) (w h : Int) :
    (VirtualJoystick_SetWindowSize j w h)._window_width = w ∧
    (VirtualJoystick_SetWindowSize j w h)._window_height = h ∧
    (VirtualJoystick_SetWindowSize j w h).joystick_area = j.joystick_area ∧
    (VirtualJoystick_SetWindowSize j w h).pressed_color = j.pressed_color ∧
    (VirtualJoystick_SetWindowSize j w h).deadzone_size = j.deadzone_size ∧
    (VirtualJoystick_SetWindowSize j w h).clampzone_size = j.clampzone_size ∧
    (VirtualJoystick_SetWindowSize j w h).joystick_mode = j.joystick_mode ∧
    (VirtualJoystick_SetWindowSize j w h).is_pressed = j.is_pressed ∧
    (VirtualJoystick_SetWindowSize j w h).output = j.output ∧
    (VirtualJoystick_SetWindowSize j w h)._touch_index = j._touch_index ∧
    (VirtualJoystick_SetWindowSize j w h)._base_center = j._base_center ∧
    (VirtualJoystick_SetWindowSize j w h)._tip_center = j._tip_center ∧
    (VirtualJoystick_SetWindowSize j w h)._base_default_center = j._base_default_center ∧
    (VirtualJoystick_SetWindowSize j w h)._default_tip_color = j._default_tip_color ∧
    (VirtualJoystick_SetWindowSize j w h)._tip_color = j._tip_color ∧
    (VirtualJoystick_SetWindowSize j w h)._base_radius = j._base_radius ∧
    (VirtualJoystick_SetWindowSize j w h)._tip_radius = j._tip_radius ∧
    (VirtualJoystick_SetWindowSize j w h)._hidden = j._hidden :=
  ⟨rfl, rfl, rfl, rfl, rfl, rfl, rfl, rfl, rfl, rfl, rfl, rfl, rfl, rfl, rfl, rfl, rfl, rfl⟩

/-- C3: In Following mode (with a well-formed zone configuration,
`0 ≤ deadzone < clampzone`), when the raw vector from base center to touch
position strictly exceeds `clampzone_size` in length, the update routine
relocates the base to `p - clamped`, leaves the tip exactly
`clampzone_size` from the new base, and produces output magnitude `1`;
when the raw length equals `clampzone_size` exactly, the base stays. -/
theorem C3_following_base_shift (j : VirtualJoystick) (p : SDL_FPoint)
    (hm : j.joystick_mode = JoystickMode.JOYSTICK_MODE_FOLLOWING)
    (hd : 0 ≤ j.deadzone_size) (hdc : j.deadzone_size < j.clampzone_size) :
    (Vector2_Length (vector_from_base_center j p) > j.clampzone_size →
      (_update_joystick_logic j p)._base_center =
        ⟨p.x - (clamped_vector j p).x, p.y - (clamped_vector j p).y⟩ ∧
      Vector2_Length
        ⟨(_update_joystick_logic j p)._tip_center.x - (_update_joystick_logic j p)._base_center.x,
          (_update_joystick_logic j p)._tip_center.y -
            (_update_joystick_logic j p)._base_center.y⟩ = j.clampzone_size ∧
      Vector2_Length (_update_joystick_logic j p).output = 1) ∧
    (Vector2_Length (vector_from_base_center j p) = j.clampzone_size →
      (_update_joystick_logic j p)._base_center = j._base_center) := by
  have hc : 0 ≤ j.clampzone_size := le_of_lt (lt_of_le_of_lt hd hdc)
  constructor
  · intro hgt
    have hlen : Vector2_Length (clamped_vector j p) = j.clampzone_size :=
      Vector2_LimitLength_length_of_gt _ _ hc hgt
    have hne : Vector2_Length (clamped_vector j p) ≠ 0 := by
      rw [hlen]; linarith
    refine ⟨?_, ?_, ?_⟩
    · rw [update_base_center, if_pos ⟨hm, hgt⟩]
    · have harg :
          (⟨(_update_joystick_logic j p)._tip_center.x -
              (_update_joystick_logic j p)._base_center.x,
            (_update_joystick_logic j p)._tip_center.y -
              (_update_joystick_logic j p)._base_center.y⟩ : Vector2) = clamped_vector j p := by
        rw [update_tip_center]
        ext
        · dsimp only
          ring
        · dsimp only
          ring
      rw [harg, hlen]
    · rw [update_output, if_pos (by rw [hlen]; exact hdc),
        if_neg (by push_neg; linarith : ¬ j.clampzone_size - j.deadzone_size ≤ 0)]
      rw [Vector2_Length_comp_mul, Vector2_Normalize_length _ hne, one_mul, hlen,
        div_self (by linarith : j.clampzone_size - j.deadzone_size ≠ 0), abs_one]
  · intro heq
    rw [update_base_center, if_neg ?_]
    rintro ⟨-, hgt⟩
    rw [heq] at hgt
    exact lt_irrefl _ hgt

/-- Witness for C3: Following-mode joystick with base at `(100,300)` and a
touch at `(250,300)`, 150 px away with clampzone 75. -/
theorem C3_following_base_shift_witness :
    jC3_following.joystick_mode = JoystickMode.JOYSTICK_MODE_FOLLOWING ∧
    0 ≤ jC3_following.deadzone_size ∧
    jC3_following.deadzone_size < jC3_following.clampzone_size ∧
    ((Vector2_Length (vector_from_base_center jC3_following ⟨250, 300⟩) >
        jC3_following.clampzone_size →
      (_update_joystick_logic jC3_following ⟨250, 300⟩)._base_center =
        ⟨250 - (clamped_vector jC3_following ⟨250, 300⟩).x,
          300 - (clamped_vector jC3_following ⟨250, 300⟩).y⟩ ∧
      Vector2_Length
        ⟨(_update_joystick_logic jC3_following ⟨250, 300⟩)._tip_center.x -
            (_update_joystick_logic jC3_following ⟨250, 300⟩)._base_center.x,
          (_update_joystick_logic jC3_following ⟨250, 300⟩)._tip_center.y -
            (_update_joystick_logic jC3_following ⟨250, 300⟩)._base_center.y⟩ =
        jC3_following.clampzone_size ∧
      Vector2_Length (_update_joystick_logic jC3_following ⟨250, 300⟩).output = 1) ∧
     (Vector2_Length (vector_from_base_center jC3_following ⟨250, 300⟩) =
        jC3_following.clampzone_size →
      (_update_joystick_logic jC3_following ⟨250, 300⟩)._base_center =
        jC3_following._base_center)) := by
  have hm : jC3_following.joystick_mode = JoystickMode.JOYSTICK_MODE_FOLLOWING := rfl
  have hd : 0 ≤ jC3_following.deadzone_size := by
    show (0 : ℝ) ≤ 10
    norm_num
  have hdc : jC3_following.deadzone_size < jC3_following.clampzone_size := by
    show (10 : ℝ) < 75
    norm_num
  exact ⟨hm, hd, hdc, C3_following_base_shift jC3_following ⟨250, 300⟩ hm hd hdc⟩

/-! ### Further projection corollaries and the C4 scenario steps -/

theorem update_deadzone (j : VirtualJoystick) (p : SDL_FPoint) :
    (_update_joystick_logic j p).deadzone_size = j.deadzone_size := by
  obtain ⟨-, -, h, -, -, -, -, -, -, -, -, -, -, -⟩ := update_preserves_fields j p
  exact h

theorem update_mode (j : VirtualJoystick) (p : SDL_FPoint) :
    (_update_joystick_logic j p).joystick_mode = j.joystick_mode := by
  obtain ⟨-, -, -, -, h, -, -, -, -, -, -, -, -, -⟩ := update_preserves_fields j p
  exact h

theorem update_window_width (j : VirtualJoystick) (p : SDL_FPoint) :
    (_update_joystick_logic j p)._window_width = j._window_width := by
  obtain ⟨-, -, -, -, -, -, -, -, -, -, -, -, h, -⟩ := update_preserves_fields j p
  exact h

theorem update_window_height (j : VirtualJoystick) (p : SDL_FPoint) :
    (_update_joystick_logic j p)._window_height = j._window_height := by
  obtain ⟨-, -, -, -, -, -, -, -, -, -, -, -, -, h⟩ := update_preserves_fields j p
  exact h

theorem update_base_default_center (j : VirtualJoystick) (p : SDL_FPoint) :
    (_update_joystick_logic j p)._base_default_center = j._base_default_center := by
  obtain ⟨-, -, -, -, -, -, h, -, -, -, -, -, -, -⟩ := update_preserves_fields j p
  exact h

theorem truncInt_fifty : truncInt (50 : ℝ) = 50 := by
  unfold truncInt
  rw [if_pos (by norm_num : (0 : ℝ) ≤ 50)]
  norm_num

theorem jC4_start_inside_area : _is_point_inside_joystick_area jC4_start ⟨50, 50⟩ := by
  unfold _is_point_inside_joystick_area
  show (0 : Int) ≤ truncInt 50 ∧ truncInt 50 < 0 + 200 ∧
    (0 : Int) ≤ truncInt 50 ∧ truncInt 50 < 0 + 600
  rw [truncInt_fifty]
  refine ⟨by norm_num, by norm_num, by norm_num, by norm_num⟩

theorem jC4_afterDown_eq :
    jC4_afterDown = _update_joystick_logic jC4_mid ⟨50, 50⟩ := by
  have hT : event_touch_position jC4_start ⟨SDL_EventType.SDL_FINGERDOWN, ⟨7, 1/4, 1/12⟩⟩ =
      ⟨50, 50⟩ := by
    unfold event_touch_position
    ext
    · show (1/4 : ℝ) * ((200 : Int) : ℝ) = 50
      norm_num
    · show (1/12 : ℝ) * ((600 : Int) : ℝ) = 50
      norm_num
  unfold jC4_afterDown VirtualJoystick_HandleEvent eC4_down
  dsimp only
  rw [if_neg (by rintro ⟨-, hne⟩; exact hne rfl)]
  rw [hT]
  rw [if_pos ⟨jC4_start_inside_area, rfl⟩]
  rw [if_pos (Or.inl
    (show jC4_start.joystick_mode = JoystickMode.JOYSTICK_MODE_DYNAMIC from rfl))]
  rw [if_pos (Or.inl
    (show jC4_start.joystick_mode = JoystickMode.JOYSTICK_MODE_DYNAMIC from rfl))]
  rfl

theorem jC4_mid_raw_zero : vector_from_base_center jC4_mid ⟨50, 50⟩ = ⟨0, 0⟩ := by
  ext
  · show (50 : ℝ) - 50 = 0
    norm_num
  · show (50 : ℝ) - 50 = 0
    norm_num

theorem jC4_mid_clamped_zero : clamped_vector jC4_mid ⟨50, 50⟩ = ⟨0, 0⟩ := by
  unfold clamped_vector
  rw [jC4_mid_raw_zero]
  refine Vector2_LimitLength_eq_self _ _ ?_
  rw [Vector2_Length_zero_vec]
  show (0 : ℝ) ≤ 75
  norm_num

theorem jC4_afterDown_fields :
    jC4_afterDown._base_center = ⟨50, 50⟩ ∧
    jC4_afterDown._tip_center = ⟨50, 50⟩ ∧
    jC4_afterDown._hidden = false ∧
    jC4_afterDown.is_pressed = false ∧
    jC4_afterDown.output = ⟨0, 0⟩ ∧
    jC4_afterDown._touch_index = 7 ∧
    jC4_afterDown.joystick_mode = JoystickMode.JOYSTICK_MODE_DYNAMIC ∧
    jC4_afterDown.deadzone_size = 10 ∧
    jC4_afterDown.clampzone_size = 75 ∧
    jC4_afterDown._window_width = 200 ∧
    jC4_afterDown._window_height = 600 ∧
    jC4_afterDown._base_default_center = jC4_start._base_default_center := by
  have hnotfol : ¬(jC4_mid.joystick_mode = JoystickMode.JOYSTICK_MODE_FOLLOWING ∧
      Vector2_Length (vector_from_base_center jC4_mid ⟨50, 50⟩) > jC4_mid.clampzone_size) := by
    rintro ⟨hmode, -⟩
    exact JoystickMode.noConfusion
      (show JoystickMode.JOYSTICK_MODE_DYNAMIC = JoystickMode.JOYSTICK_MODE_FOLLOWING from hmode)
  have hnotpress :
      ¬(Vector2_Length (clamped_vector jC4_mid ⟨50, 50⟩) > jC4_mid.deadzone_size) := by
    rw [jC4_mid_clamped_zero, Vector2_Length_zero_vec]
    show ¬((10 : ℝ) < 0)
    norm_num
  refine ⟨?_, ?_, ?_, ?_, ?_, ?_, ?_, ?_, ?_, ?_, ?_, ?_⟩
  · rw [jC4_afterDown_eq, update_base_center, if_neg hnotfol]
    rfl
  · rw [jC4_afterDown_eq, update_tip_center, update_base_center, if_neg hnotfol,
      jC4_mid_clamped_zero]
    ext
    · show (50 : ℝ) + 0 = 50
      norm_num
    · show (50 : ℝ) + 0 = 50
      norm_num
  · rw [jC4_afterDown_eq, update_hidden]
    rfl
  · rw [jC4_afterDown_eq, update_is_pressed, if_neg hnotpress]
  · rw [jC4_afterDown_eq, update_output, if_neg hnotpress]
  · rw [jC4_afterDown_eq, update_touch_index]
    rfl
  · rw [jC4_afterDown_eq, update_mode]
    rfl
  · rw [jC4_afterDown_eq, update_deadzone]
    rfl
  · rw [jC4_afterDown_eq, update_clampzone]
    rfl
  · rw [jC4_afterDown_eq, update_window_width]
    rfl
  · rw [jC4_afterDown_eq, update_window_height]
    rfl
  · rw [jC4_afterDown_eq, update_base_default_center]
    rfl

theorem Vector2_Length_zero_fifty : Vector2_Length ⟨0, 50⟩ = 50 := by
  unfold Vector2_Length
  rw [show ((0 : ℝ) * 0 + 50 * 50) = 50 * 50 by norm_num]
  exact Real.sqrt_mul_self (by norm_num)

theorem Vector2_Normalize_zero_fifty : Vector2_Normalize ⟨0, 50⟩ = ⟨0, 1⟩ := by
  unfold Vector2_Normalize
  rw [Vector2_Length_zero_fifty]
  rw [if_neg (by norm_num : ¬(50 : ℝ) = 0)]
  ext
  · show (0 : ℝ) / 50 = 0
    norm_num
  · show (50 : ℝ) / 50 = 1
    norm_num

theorem jC4_afterMove_eq :
    jC4_afterMove = _update_joystick_logic jC4_afterDown ⟨50, 100⟩ := by
  obtain ⟨-, -, hhid, -, -, htouch, -, -, -, hww, hwh, -⟩ := jC4_afterDown_fields
  have hT : event_touch_position jC4_afterDown
      ⟨SDL_EventType.SDL_FINGERMOTION, ⟨7, 1/4, 1/6⟩⟩ = ⟨50, 100⟩ := by
    unfold event_touch_position
    ext
    · show (1/4 : ℝ) * (jC4_afterDown._window_width : ℝ) = 50
      rw [hww]
      norm_num
    · show (1/6 : ℝ) * (jC4_afterDown._window_height : ℝ) = 100
      rw [hwh]
      norm_num
  unfold jC4_afterMove VirtualJoystick_HandleEvent eC4_move
  dsimp only
  rw [if_neg (by rintro ⟨h1, -⟩; rw [hhid] at h1; exact Bool.noConfusion h1)]
  rw [hT]
  rw [if_pos (show (7 : Int) = jC4_afterDown._touch_index from htouch.symm)]

theorem jC4_afterDown_raw : vector_from_base_center jC4_afterDown ⟨50, 100⟩ = ⟨0, 50⟩ := by
  obtain ⟨hbase, -⟩ := jC4_afterDown_fields
  unfold vector_from_base_center
  rw [hbase]
  ext
  · show (50 : ℝ) - 50 = 0
    norm_num
  · show (100 : ℝ) - 50 = 50
    norm_num

theorem jC4_afterDown_clamped : clamped_vector jC4_afterDown ⟨50, 100⟩ = ⟨0, 50⟩ := by
  obtain ⟨-, -, -, -, -, -, -, -, hclamp, -⟩ := jC4_afterDown_fields
  unfold clamped_vector
  rw [jC4_afterDown_raw, hclamp]
  refine Vector2_LimitLength_eq_self _ _ ?_
  rw [Vector2_Length_zero_fifty]
  norm_num

theorem jC4_afterMove_fields :
    jC4_afterMove.output = ⟨0, 40/65⟩ ∧
    jC4_afterMove._hidden = false ∧
    jC4_afterMove._touch_index = 7 ∧
    jC4_afterMove._base_default_center = jC4_start._base_default_center ∧
    jC4_afterMove._base_center = ⟨50, 50⟩ ∧
    jC4_afterMove._tip_center = ⟨50, 100⟩ ∧
    jC4_afterMove.is_pressed = true := by
  obtain ⟨hbase, -, hhid, -, -, htouch, hmode, hdead, hclamp, -, -, hdef⟩ :=
    jC4_afterDown_fields
  have hnotfol2 : ¬(jC4_afterDown.joystick_mode = JoystickMode.JOYSTICK_MODE_FOLLOWING ∧
      Vector2_Length (vector_from_base_center jC4_afterDown ⟨50, 100⟩) >
        jC4_afterDown.clampzone_size) := by
    rintro ⟨hm2, -⟩
    rw [hmode] at hm2
    exact JoystickMode.noConfusion hm2
  have hpress2 : Vector2_Length (clamped_vector jC4_afterDown ⟨50, 100⟩) >
      jC4_afterDown.deadzone_size := by
    rw [jC4_afterDown_clamped, Vector2_Length_zero_fifty, hdead]
    norm_num
  have hrangepos : ¬(jC4_afterDown.clampzone_size - jC4_afterDown.deadzone_size ≤ 0) := by
    rw [hclamp, hdead]
    norm_num
  refine ⟨?_, ?_, ?_, ?_, ?_, ?_, ?_⟩
  · rw [jC4_afterMove_eq, update_output, if_pos hpress2, if_neg hrangepos,
      jC4_afterDown_clamped, Vector2_Normalize_zero_fifty, Vector2_Length_zero_fifty,
      hdead, hclamp]
    ext
    · show (0 : ℝ) * ((50 - 10) / (75 - 10)) = 0
      norm_num
    · show (1 : ℝ) * ((50 - 10) / (75 - 10)) = 40 / 65
      norm_num
  · rw [jC4_afterMove_eq, update_hidden, hhid]
  · rw [jC4_afterMove_eq, update_touch_index, htouch]
  · rw [jC4_afterMove_eq, update_base_default_center, hdef]
  · rw [jC4_afterMove_eq, update_base_center, if_neg hnotfol2, hbase]
  · rw [jC4_afterMove_eq, update_tip_center, update_base_center, if_neg hnotfol2,
      hbase, jC4_afterDown_clamped]
    ext
    · show (50 : ℝ) + 0 = 50
      norm_num
    · show (50 : ℝ) + 50 = 100
      norm_num
  · rw [jC4_afterMove_eq, update_is_pressed, if_pos hpress2]

theorem jC4_afterUp_eq : jC4_afterUp = _reset_joystick jC4_afterMove := by
  obtain ⟨-, hhid2, htouch2, -, -, -, -⟩ := jC4_afterMove_fields
  unfold jC4_afterUp VirtualJoystick_HandleEvent eC4_up
  dsimp only
  rw [if_neg (by rintro ⟨h1, -⟩; rw [hhid2] at h1; exact Bool.noConfusion h1)]
  rw [if_pos (show (7 : Int) = jC4_afterMove._touch_index from htouch2.symm)]

/-- C4: Dynamic-mode scenario over area `(0,0,200,600)` with clampzone 75
and deadzone 10: a touch-down at pixel `(50,50)` relocates the base to
`(50,50)`, clears hidden, and runs the update immediately (tip placed,
output and pressed computed on the first frame); motion of the tracked
finger to `(50,100)` yields output `(0, 40/65)`; the touch-up hides the
joystick, zeroes the output, and returns the base to the area's default
center `(100,300)`. -/
theorem C4_dynamic_scenario :
    jC4_afterDown._base_center = ⟨50, 50⟩ ∧
    jC4_afterDown._hidden = false ∧
    jC4_afterDown._tip_center = ⟨50, 50⟩ ∧
    jC4_afterDown.is_pressed = false ∧
    jC4_afterDown.output = ⟨0, 0⟩ ∧
    jC4_afterMove.output = ⟨0, 40/65⟩ ∧
    jC4_afterUp._hidden = true ∧
    jC4_afterUp.output = ⟨0, 0⟩ ∧
    jC4_afterUp._base_center = ⟨100, 300⟩ := by
  obtain ⟨hb, ht, hh, hp, ho, -, -, -, -, -, -, -⟩ := jC4_afterDown_fields
  obtain ⟨hmo, -, -, hdef2, -, -, -⟩ := jC4_afterMove_fields
  have hdef0 : jC4_start._base_default_center = ⟨100, 300⟩ := by
    ext
    · show ((0 : Int) : ℝ) + ((200 : Int) : ℝ) / 2 = 100
      norm_num
    · show ((0 : Int) : ℝ) + ((600 : Int) : ℝ) / 2 = 300
      norm_num
  refine ⟨hb, hh, ht, hp, ho, hmo, ?_, ?_, ?_⟩
  · rw [jC4_afterUp_eq]
    rfl
  · rw [jC4_afterUp_eq]
    rfl
  · rw [jC4_afterUp_eq]
    show jC4_afterMove._base_default_center = ⟨100, 300⟩
    rw [hdef2, hdef0]
